import Mathlib

/-!
Verification of the Reddit-to-Telegram bridge (src/main.py) against its
natural-language specification.

The program is shallowly embedded: Python dicts with optional keys become
structures with Option fields, attribute-presence probing (hasattr) becomes
an Option layer, Python falsiness checks on strings are modelled explicitly,
and every network side effect of the delivery path is recorded in an explicit
trace of Call values.  Fallible Python code (attribute access on None raises
AttributeError) is modelled with Except.
-/

namespace RedditTg

/-! ## String helpers (substring test over character lists) -/

/-- Does the pattern match at the head of the haystack? -/
def subAt : List Char → List Char → Bool
  | [], _ => true
  | _ :: _, [] => false
  | p :: ps, c :: cs => if p = c then subAt ps cs else false

/-- Does the pattern occur anywhere in the haystack?  Models the Python
substring test (pat in hay). -/
def hasSub (pat : List Char) : List Char → Bool
  | [] => subAt pat []
  | c :: cs => subAt pat (c :: cs) || hasSub pat cs

/-- String-level wrapper: models Python (pat in hay). -/
def strHasSub (hay pat : String) : Bool :=
  hasSub pat.toList hay.toList

/-- Models str.startswith. -/
def strStarts (hay pat : String) : Bool :=
  subAt pat.toList hay.toList

/-- Models str.endswith. -/
def strEnds (hay pat : String) : Bool :=
  subAt pat.toList.reverse hay.toList.reverse

/-! ## escape_html_text (src/main.py lines 20-28)

The source chains three str.replace calls.  We embed the replace of a
single-character pattern over character lists. -/

/-- One pass of str.replace with a single-character pattern. -/
def replaceAllChar (pat : Char) (repl : List Char) : List Char → List Char
  | [] => []
  | c :: cs =>
    if c = pat then repl ++ replaceAllChar pat repl cs
    else c :: replaceAllChar pat repl cs

/-- The replace chain of escape_html_text on a character list:
amp first, then lt, then gt (src/main.py lines 24-28). -/
def escape_chars (l : List Char) : List Char :=
  replaceAllChar '>' ("&gt;".toList)
    (replaceAllChar '<' ("&lt;".toList)
      (replaceAllChar '&' ("&amp;".toList) l))

/-- escape_html_text (src/main.py lines 20-28): None maps to the empty
string, otherwise the three replaces are applied. -/
def escape_html_text : Option String → String
  | none => ""
  | some t => String.mk (escape_chars t.toList)

/-! ## Data model: the duck-typed submission object

Option layers record which Python value shapes the code distinguishes:
for is_video, media_metadata and gallery_data the code probes with hasattr,
so none models an absent attribute; submission.media is accessed without a
probe, so none models the value None (method access on it raises). -/

/-- The dict submission.media.reddit_video; fallback_url none models the
key being absent. -/
structure RedditVideoDict where
  fallback_url : Option String
deriving DecidableEq, Repr

/-- The dict submission.media; reddit_video none models the key being
absent (the source supplies an empty-dict default). -/
structure MediaDict where
  reddit_video : Option RedditVideoDict
deriving DecidableEq, Repr

/-- A media_metadata entry dict under key s, holding the source URLs. -/
structure SourceData where
  u : Option String
  gif : Option String
deriving DecidableEq, Repr

/-- One media_metadata entry: s is the source-data dict, e is the type tag. -/
structure MetaEntry where
  s : Option SourceData
  e : Option String
deriving DecidableEq, Repr

/-- One gallery_data item; media_id none models the key being absent. -/
structure GalleryItem where
  media_id : Option String
deriving DecidableEq, Repr

/-- The submission object, with exactly the fields src/main.py reads.
author none models a soft-deleted account (submission.author is None).
media_metadata distinguishes the attribute being absent (none, hasattr
False) from present with value None (some none, hasattr True), because
line 89 calls .get on the value and raises when it is None. -/
structure Submission where
  id : String
  url : String
  is_video : Option Bool
  media : Option MediaDict
  media_metadata : Option (Option (List (String × MetaEntry)))
  gallery_data : Option (List GalleryItem)
  title : Option String
  author : Option String
  subreddit : String
  permalink : String
deriving DecidableEq, Repr

/-- Python falsiness on an optional string: None and the empty string are
falsy (the if-not checks at src/main.py lines 106-108 and 113-115). -/
def strFalsy : Option String → Option String
  | none => none
  | some s => if s = "" then none else some s

/-! ## get_media_urls (src/main.py lines 59-121) -/

/-- The body of the gallery for-loop (src/main.py lines 84-116), with the
accumulated media_list threaded through as in the source.  Each continue
becomes a recursive call on the remaining items with the accumulator
unchanged. -/
def galleryLoop (md : List (String × MetaEntry)) (acc : List (String × String)) :
    List GalleryItem → List (String × String)
  | [] => acc
  | item :: rest =>
    match item.media_id with
    | none => galleryLoop md acc rest
    | some mid =>
      -- if not media_id: continue  (empty string is also falsy)
      if mid = "" then galleryLoop md acc rest
      else
        match List.lookup mid md with
        | none => galleryLoop md acc rest      -- missing metadata: skip
        | some meta =>
          match meta.s with
          | none => galleryLoop md acc rest    -- missing s data: skip
          | some sdata =>
            if meta.e = some "RedditVideo" then
              match strFalsy sdata.u with
              | none => galleryLoop md acc rest
              | some u => galleryLoop md (acc ++ [(u, "video")]) rest
            else if meta.e = some "AnimatedImage" then
              match strFalsy sdata.gif with
              | none => galleryLoop md acc rest
              | some g => galleryLoop md (acc ++ [(g, "gif")]) rest
            else
              match strFalsy sdata.u with
              | none => galleryLoop md acc rest
              | some u => galleryLoop md (acc ++ [(u, "photo")]) rest

/-- The gallery loop of lines 84-116 when media_metadata is present but
None (hasattr is True for a None-valued attribute): the per-item
media_id checks at lines 85-88 still run and can skip items, but the
first item with a truthy media_id reaches line 89, which calls .get on
None and raises AttributeError; a gallery whose items all lack a usable
media_id completes with the empty list. -/
def galleryLoopNullMeta : List GalleryItem → Except String (List (String × String))
  | [] => Except.ok []
  | item :: rest =>
    match item.media_id with
    | none => galleryLoopNullMeta rest
    | some mid =>
      if mid = "" then galleryLoopNullMeta rest
      else Except.error "AttributeError: NoneType has no attribute get"

/-- The direct-image regex at src/main.py line 118, with the unescaped
regex dots read as the literal dots they are intended to match; the
compiled regex also accepts any character in the dot positions, so this
model is strictly narrower than the source pattern (every URL it
accepts, the source accepts). -/
def isDirectImage (url : String) : Bool :=
  (strStarts url "https://i.redd.it/" || strStarts url "https://preview.redd.it/") &&
    (strEnds url ".jpg" || strEnds url ".jpeg" || strEnds url ".png")

/-- get_media_urls (src/main.py lines 59-121).  Returns Except because the
source raises AttributeError in two places: when a video-flagged
submission has submission.media equal to None (line 66 calls .get on it),
and when media_metadata is present but None while a gallery item carries
a usable media_id (line 89 calls .get on it).  An empty gallery dict
(falsy, line 81) and a gallery dict whose items list is empty both yield
the empty result, so they are modelled together by an empty items
list. -/
def get_media_urls (submission : Submission) : Except String (List (String × String)) :=
  let url := submission.url
  -- Direct Reddit video (lines 65-71)
  if submission.is_video.getD false then
    match submission.media with
    | none => Except.error "AttributeError: NoneType has no attribute get"
    | some mediaDict =>
      match mediaDict.reddit_video with
      | none => Except.ok []                 -- fallback_url not in the empty default
      | some media_data =>
        match media_data.fallback_url with
        | none => Except.ok []               -- missing fallback URL: return
        | some fu => Except.ok [(fu, "video")]
  -- Third-party video/GIF (lines 74-77)
  else if strHasSub url "gfycat.com" || strHasSub url "redgifs.com" || strEnds url ".gifv" then
    Except.ok [(url, "video")]
  else if strEnds url ".gif" then
    Except.ok [(url, "gif")]
  else
    -- Reddit gallery (lines 79-116)
    match submission.media_metadata, submission.gallery_data with
    | some mdOpt, some items =>
      if items.isEmpty then Except.ok []     -- if not gallery_data: return
      else
        match mdOpt with
        | none => galleryLoopNullMeta items  -- line 89 .get on None raises
        | some md => Except.ok (galleryLoop md [] items)
    | _, _ =>
      -- Direct image (lines 118-119) or nothing
      if isDirectImage url then Except.ok [(url, "photo")]
      else Except.ok []

/-- Per-item gallery classification, following the wording of spec rule 2:
resolve the metadata entry by item identifier (none if missing), tag
RedditVideo as video, AnimatedImage as gif using the gif URL, anything
else as photo using the source URL; yield nothing when the chosen URL is
missing or empty.  Stated separately so the loop above can be proved to be
its order-preserving filterMap. -/
def galleryItemSpec (md : List (String × MetaEntry)) (item : GalleryItem) :
    Option (String × String) :=
  match item.media_id with
  | none => none
  | some mid =>
    if mid = "" then none
    else
      match List.lookup mid md with
      | none => none
      | some meta =>
        match meta.s with
        | none => none
        | some sdata =>
          if meta.e = some "RedditVideo" then
            (strFalsy sdata.u).map (fun u => (u, "video"))
          else if meta.e = some "AnimatedImage" then
            (strFalsy sdata.gif).map (fun g => (g, "gif"))
          else
            (strFalsy sdata.u).map (fun u => (u, "photo"))

/-- Is a classification result a success (no exception)? -/
def exceptOk : Except String (List (String × String)) → Bool
  | Except.ok _ => true
  | Except.error _ => false

/-! ## Caption composition (src/main.py lines 165-177)

The caption f-string, embedded at the level of character lists so that
substring and escaping facts can be proved by list induction.  The
comment digest (get_top_comments) is a network interaction whose text we
take as a parameter; its retrieval is recorded as a Call in the send
model below. -/

/-- str(submission.author): the author object prints as its name, and
None prints as the four characters None (src/main.py line 166). -/
def pyStrAuthor : Option String → String
  | none => "None"
  | some a => a

/-- The caption built at src/main.py lines 170-177, as a character list.
Only title and author pass through escape_html_text; the subreddit name,
the permalink and the comment digest are interpolated as-is. -/
def caption_list (sub : Submission) (comments_text : List Char) : List Char :=
  let title := escape_chars ((sub.title.getD "").toList)
  let author := escape_chars ((pyStrAuthor sub.author).toList)
  let post_link := ("https://reddit.com").toList ++ sub.permalink.toList
  let base :=
    ("<b>New Post from r/").toList ++ sub.subreddit.toList ++ ("</b>\n").toList ++
    ("<b>Title</b>: ").toList ++ title ++ ("\n").toList ++
    ("<b>Author</b>: u/").toList ++ author ++ ("\n\n").toList ++
    ("<b>Link</b>: <a href=").toList ++ ['\''] ++ post_link ++ ['\''] ++
    (">View Post</a>\n\n").toList
  if comments_text = [] then base
  else base ++ ("<b>Top Comments:</b>\n").toList ++ comments_text

/-- String-level caption, wrapping caption_list. -/
def caption_of (sub : Submission) (comments_text : String) : String :=
  String.mk (caption_list sub comments_text.toList)

/-! ## The delivery model: send_to_telegram (src/main.py lines 163-229)

Every network interaction of one delivery attempt is recorded as a Call.
The environment supplies the outcome of each media download and of the
one Telegram send call the source makes. -/

/-- The wrapper objects built for a grouped send (src/main.py lines
205-208): only items tagged video get InputMediaVideo, everything else
(including gif) gets InputMediaPhoto. -/
inductive InputMedia where
  | photoMedia (url : String)
  | videoMedia (url : String)
deriving DecidableEq, Repr

/-- One network interaction of the delivery path.  Payload sends carry the
chat, the topic (message_thread_id) and whether the call succeeded;
sendErrorMessage is the plain error notification of
send_error_to_telegram. -/
inductive Call where
  | fetchComments
  | download (url : String) (ok : Bool)
  | sendMediaGroup (chat : Int) (topic : Option Int) (payload : List InputMedia) (ok : Bool)
  | sendVideo (chat : Int) (topic : Option Int) (url : String) (ok : Bool)
  | sendAnimation (chat : Int) (topic : Option Int) (url : String) (ok : Bool)
  | sendPhoto (chat : Int) (topic : Option Int) (url : String) (ok : Bool)
  | sendErrorMessage (chat : Int) (topic : Option Int)
deriving DecidableEq, Repr

/-- Outcome of the one Telegram send call the source makes: success, a
telegram.error.TelegramError, or any other exception.  Either exception
reaches the except clause at line 222, whose expression references the
name telegram — which main.py never binds (it only has from-imports) —
so the clause itself raises NameError and the second handler at line 226
is skipped: both failure outcomes make send_to_telegram raise. -/
inductive SendOutcome where
  | success
  | telegramError (msg : String)
  | otherError (msg : String)
deriving DecidableEq, Repr

/-- The exception that escapes send_to_telegram when the send fails: the
except clause at line 222 evaluates the unbound name telegram. -/
def nameErrorMsg : String := "NameError: name telegram is not defined"

/-- Did the send call go through? -/
def outcomeOk : SendOutcome → Bool
  | SendOutcome.success => true
  | _ => false

/-- The external world of one delivery attempt: per-URL download results
(false models a falsy response, line 194) and the outcome of the send. -/
structure TgEnv where
  downloadOk : String → Bool
  outcome : SendOutcome

/-- The download loop at src/main.py lines 191-198: downloads run in list
order and the first failure aborts the loop. -/
def downloadPhase (env : TgEnv) : List (String × String) → Bool × List Call
  | [] => (true, [])
  | (url, _) :: rest =>
    if env.downloadOk url then
      let r := downloadPhase env rest
      (r.1, Call.download url true :: r.2)
    else (false, [Call.download url false])

/-- The wrapper choice inside the media-group loop (src/main.py lines
205-208): the tag video selects InputMediaVideo, any other tag selects
InputMediaPhoto. -/
def wrapMedia (p : String × String) : InputMedia :=
  if p.2 = "video" then InputMedia.videoMedia p.1 else InputMedia.photoMedia p.1

/-- The single-item dispatch at src/main.py lines 212-219. -/
def singleSendCall (ok : Bool) (chat_id topic_id : Int) (p : String × String) : Call :=
  if p.2 = "video" then Call.sendVideo chat_id (some topic_id) p.1 ok
  else if p.2 = "gif" then Call.sendAnimation chat_id (some topic_id) p.1 ok
  else Call.sendPhoto chat_id (some topic_id) p.1 ok

/-- The group-versus-single branch at src/main.py lines 201-219, for a
non-empty media list written as head and tail. -/
def mainSendCall (ok : Bool) (chat_id topic_id : Int) (x : String × String)
    (rest : List (String × String)) : Call :=
  if rest.length + 1 > 1 then
    Call.sendMediaGroup chat_id (some topic_id) ((x :: rest).map wrapMedia) ok
  else singleSendCall ok chat_id topic_id x

/-- send_to_telegram (src/main.py lines 163-229): comment fetch for the
caption (line 168), the over-10 guard (line 179, notification plus
False), the no-media early return (line 186), the download loop (failure
sends a notification and returns False, lines 193-197), then exactly one
send call.  A successful send returns True.  A failed send raises: the
except clause at line 222 references the unbound name telegram, so
NameError propagates out of the function — no error notification is sent
and no False is returned on that path (lines 223-229 are dead code).
Returns the Except-wrapped result and the list of network calls in
order. -/
def send_to_telegram (env : TgEnv) (chat_id topic_id : Int) (sub : Submission)
    (media_list : List (String × String)) (error_topic_id : Int) :
    Except String Bool × List Call :=
  let pre := [Call.fetchComments]
  if media_list.length > 10 then
    (Except.ok false, pre ++ [Call.sendErrorMessage chat_id (some error_topic_id)])
  else
    match media_list with
    | [] => (Except.ok false, pre)
    | x :: rest =>
      let dl := downloadPhase env (x :: rest)
      if dl.1 = false then
        (Except.ok false, pre ++ dl.2 ++ [Call.sendErrorMessage chat_id (some error_topic_id)])
      else
        let ok := outcomeOk env.outcome
        let sendCall := mainSendCall ok chat_id topic_id x rest
        if ok then (Except.ok true, pre ++ dl.2 ++ [sendCall])
        else (Except.error nameErrorMsg, pre ++ dl.2 ++ [sendCall])

/-! ## Call counting -/

/-- Is this one of the four payload send calls? -/
def isPayloadSend : Call → Bool
  | Call.sendMediaGroup _ _ _ _ => true
  | Call.sendVideo _ _ _ _ => true
  | Call.sendAnimation _ _ _ _ => true
  | Call.sendPhoto _ _ _ _ => true
  | _ => false

/-- Is this a payload send that succeeded? -/
def isSuccessSend : Call → Bool
  | Call.sendMediaGroup _ _ _ ok => ok
  | Call.sendVideo _ _ _ ok => ok
  | Call.sendAnimation _ _ _ ok => ok
  | Call.sendPhoto _ _ _ ok => ok
  | _ => false

/-- Is this a payload send addressed to the default group destination,
with no topic (the fallback destination of the spec)? -/
def isFallbackSend : Call → Bool
  | Call.sendMediaGroup _ none _ _ => true
  | Call.sendVideo _ none _ _ => true
  | Call.sendAnimation _ none _ _ => true
  | Call.sendPhoto _ none _ _ => true
  | _ => false

/-- Is this an error notification? -/
def isErrorReport : Call → Bool
  | Call.sendErrorMessage _ _ => true
  | _ => false

/-- Is this a send_animation call? -/
def isAnimationSend : Call → Bool
  | Call.sendAnimation _ _ _ _ => true
  | _ => false

def payloadSendCount (tr : List Call) : Nat := (tr.filter isPayloadSend).length
def successSendCount (tr : List Call) : Nat := (tr.filter isSuccessSend).length
def fallbackSendCount (tr : List Call) : Nat := (tr.filter isFallbackSend).length
def errorReportCount (tr : List Call) : Nat := (tr.filter isErrorReport).length
def animationSendCount (tr : List Call) : Nat := (tr.filter isAnimationSend).length

/-- The payload of the first grouped send in a trace, if any. -/
def groupPayloadOf : List Call → Option (List InputMedia)
  | [] => none
  | Call.sendMediaGroup _ _ payload _ :: _ => some payload
  | _ :: rest => groupPayloadOf rest

/-! ## The per-submission pipeline of stream_submissions
(src/main.py lines 585-626) -/

/-- Result of handling one submission from the stream: the dedup set after
the attempt, the network calls issued, and whether the post was sent. -/
structure PipeResult where
  processed : List String
  trace : List Call
  delivered : Bool
deriving Repr

/-- The record-on-success step of lines 617-623: a send that returned
True records the identifier; a send that returned False, or raised (the
NameError from the broken handler, caught by the broad except at lines
622-623), leaves the set unchanged. -/
def afterSend (st : List String) (sid : String) :
    Except String Bool × List Call → PipeResult
  | (Except.ok true, tr) => ⟨sid :: st, tr, true⟩
  | (_, tr) => ⟨st, tr, false⟩

/-- One iteration of the stream loop for one submission (src/main.py
lines 585-626): the dedup-gate check (lines 594-597), the media check
(lines 600-603), the send, and the record-on-success (lines 617-620).
A classification exception propagates to the stream restart handler, so
no send happens and nothing is recorded. -/
def processPost (env : TgEnv) (group_id topic_id error_topic_id : Int)
    (st : List String) (sub : Submission) : PipeResult :=
  if sub.id ∈ st then ⟨st, [], false⟩
  else
    match get_media_urls sub with
    | Except.error _ => ⟨st, [], false⟩
    | Except.ok [] => ⟨st, [], false⟩
    | Except.ok media =>
      afterSend st sub.id (send_to_telegram env group_id topic_id sub media error_topic_id)

/-! ## Interleaving model of the dedup gate (src/main.py lines 593-620)

Two concurrent delivery attempts (for example the stream task and a
handle_reddit_link task) run the same line sequence: acquire the lock,
check membership (line 595), release, send (lines 600-616, a suspension
point), reacquire the lock, record (line 619), release.  Each line is one
atomic step; a schedule picks which task steps next.  A task blocked on
the lock does not advance. -/

/-- Program points of one delivery attempt, one per source line group:
p0 acquire (line 594), p1 membership check (line 595), p2 release on the
already-processed path, p3 release before sending, p4 the send
(lines 600-616), p5 reacquire (line 618), p6 record (line 619), p7
release (exit of the with-block), pDone finished. -/
inductive Phase where
  | p0 | p1 | p2 | p3 | p4 | p5 | p6 | p7 | pDone
deriving DecidableEq, Repr

/-- Shared state of the two tasks: the processed set, the lock holder,
each task program point, and the log of which task performed a send. -/
structure StreamConf where
  processed : List String
  lockHolder : Option Bool
  phase0 : Phase
  phase1 : Phase
  sends : List Bool
deriving DecidableEq, Repr

/-- The submission identifier task t works on. -/
def idFor (id0 id1 : String) (t : Bool) : String := if t then id1 else id0

/-- The program point of task t. -/
def phaseOf (c : StreamConf) (t : Bool) : Phase := if t then c.phase1 else c.phase0

/-- Replace the program point of task t. -/
def setPhase (c : StreamConf) (t : Bool) (p : Phase) : StreamConf :=
  if t then { c with phase1 := p } else { c with phase0 := p }

/-- One atomic step of task t, mirroring the line sequence of
stream_submissions.  Acquiring a held lock leaves the configuration
unchanged (the task stays blocked). -/
def stepTask (id0 id1 : String) (t : Bool) (c : StreamConf) : StreamConf :=
  match phaseOf c t with
  | Phase.p0 =>
    match c.lockHolder with
    | none => setPhase { c with lockHolder := some t } t Phase.p1
    | some _ => c
  | Phase.p1 =>
    if idFor id0 id1 t ∈ c.processed then setPhase c t Phase.p2
    else setPhase c t Phase.p3
  | Phase.p2 => setPhase { c with lockHolder := none } t Phase.pDone
  | Phase.p3 => setPhase { c with lockHolder := none } t Phase.p4
  | Phase.p4 => setPhase { c with sends := c.sends ++ [t] } t Phase.p5
  | Phase.p5 =>
    match c.lockHolder with
    | none => setPhase { c with lockHolder := some t } t Phase.p6
    | some _ => c
  | Phase.p6 =>
    setPhase { c with processed := idFor id0 id1 t :: c.processed } t Phase.p7
  | Phase.p7 => setPhase { c with lockHolder := none } t Phase.pDone
  | Phase.pDone => c

/-- Run a schedule: at each entry the named task takes one step. -/
def runSched (id0 id1 : String) (sched : List Bool) (c : StreamConf) : StreamConf :=
  sched.foldl (fun c' t => stepTask id0 id1 t c') c

/-- The initial configuration: lock free, both tasks at the start. -/
def initConf (ps : List String) : StreamConf :=
  ⟨ps, none, Phase.p0, Phase.p0, []⟩

/-- Program points at which the source holds the lock: between an acquire
and the matching release. -/
def inCritical : Phase → Bool
  | Phase.p1 | Phase.p2 | Phase.p3 | Phase.p6 | Phase.p7 => true
  | _ => false

/-- The lock discipline the source actually has: whenever a task sits at
its membership check or its record step (or the releases around them), it
holds the lock.  The check and the record are nonetheless two separate
critical sections, with the lock free during the send in between. -/
def lockOk (c : StreamConf) : Prop :=
  (inCritical c.phase0 = true → c.lockHolder = some false) ∧
  (inCritical c.phase1 = true → c.lockHolder = some true)

/-! ## Concrete instances used as witnesses and counterexamples -/

/-- An environment in which every download and the send succeed. -/
def envAllOk : TgEnv := { downloadOk := fun _ => true, outcome := SendOutcome.success }

/-- The send fails with the closed-topic Telegram error. -/
def envTopicClosed : TgEnv :=
  { downloadOk := fun _ => true, outcome := SendOutcome.telegramError "Topic_closed" }

/-- The send fails with a timeout Telegram error. -/
def envTimeout : TgEnv :=
  { downloadOk := fun _ => true, outcome := SendOutcome.telegramError "Timed out" }

/-- A plain direct-image submission. -/
def subPhoto : Submission :=
  { id := "ph1", url := "https://i.redd.it/x.jpg", is_video := none, media := none,
    media_metadata := none, gallery_data := none, title := some "a photo",
    author := some "alice", subreddit := "pics", permalink := "/r/pics/ph1" }

/-- A text-only submission: its URL matches no classification rule and it
has no gallery or video. -/
def subText : Submission :=
  { id := "tx1", url := "https://example.com/page", is_video := none, media := none,
    media_metadata := none, gallery_data := none, title := some "an article",
    author := some "bob", subreddit := "news", permalink := "/r/news/tx1" }

/-- The native-video submission of spec example 1: video flag set and a
playback URL that carries a query parameter. -/
def subVideoQuery : Submission :=
  { id := "vq1", url := "https://reddit.com/r/a/vq1", is_video := some true,
    media := some { reddit_video := some { fallback_url := some "https://v.redd.it/abc?source=1" } },
    media_metadata := none, gallery_data := none, title := some "a clip",
    author := some "carol", subreddit := "clips", permalink := "/r/clips/vq1" }

/-- A video-flagged submission whose media descriptor is null. -/
def subVideoNullMedia : Submission :=
  { id := "vn1", url := "https://reddit.com/r/a/vn1", is_video := some true, media := none,
    media_metadata := none, gallery_data := none, title := some "broken clip",
    author := some "dan", subreddit := "clips", permalink := "/r/clips/vn1" }

/-- Metadata for the three-item gallery of spec example 4: entries for
items g1 and g3, the entry for g2 missing. -/
def galleryMd3 : List (String × MetaEntry) :=
  [("g1", { s := some { u := some "https://i.redd.it/u1.jpg", gif := none }, e := some "Image" }),
   ("g3", { s := some { u := some "https://i.redd.it/u3.jpg", gif := none }, e := some "Image" })]

/-- The three gallery items in listed order. -/
def galleryItems3 : List GalleryItem :=
  [{ media_id := some "g1" }, { media_id := some "g2" }, { media_id := some "g3" }]

/-- The gallery submission of spec example 4. -/
def subGallery3 : Submission :=
  { id := "ga1", url := "https://reddit.com/gallery/ga1", is_video := none, media := none,
    media_metadata := some (some galleryMd3), gallery_data := some galleryItems3,
    title := some "a gallery", author := some "erin", subreddit := "art",
    permalink := "/r/art/ga1" }

/-- A gallery submission whose media_metadata attribute is present but
null while an item carries a usable media_id: the second raise case of
the classifier (line 89). -/
def subGalleryNullMeta : Submission :=
  { id := "gn1", url := "https://reddit.com/gallery/gn1", is_video := none, media := none,
    media_metadata := some none, gallery_data := some [{ media_id := some "k1" }],
    title := some "a broken gallery", author := some "gus", subreddit := "art",
    permalink := "/r/art/gn1" }

/-- A soft-deleted-author submission whose subreddit name carries an HTML
special character, to probe the escaping of the caption. -/
def subDeleted : Submission :=
  { id := "de1", url := "https://example.com/q", is_video := none, media := none,
    media_metadata := none, gallery_data := none, title := some "t<0>",
    author := none, subreddit := "a<b", permalink := "/r/a<b/de1" }

/-! ## Counting lemmas -/

lemma length_filter_eq_zero {α : Type} (p : α → Bool) (l : List α)
    (h : ∀ c ∈ l, p c = false) : (l.filter p).length = 0 := by
  rw [List.filter_eq_nil_iff.mpr (fun a ha => by simp [h a ha])]
  rfl

lemma downloadPhase_only_downloads (env : TgEnv) :
    ∀ (ml : List (String × String)) (c : Call), c ∈ (downloadPhase env ml).2 →
      ∃ url ok, c = Call.download url ok := by
  intro ml
  induction ml with
  | nil => intro c hc; simp [downloadPhase] at hc
  | cons x rest ih =>
    intro c hc
    obtain ⟨url, kind⟩ := x
    cases h : env.downloadOk url with
    | true =>
      simp only [downloadPhase, h, if_true] at hc
      rcases List.mem_cons.mp hc with rfl | hc'
      · exact ⟨url, true, rfl⟩
      · exact ih c hc'
    | false =>
      simp [downloadPhase, h] at hc
      exact ⟨url, false, hc⟩

lemma downloadPhase_all_ok (env : TgEnv) :
    ∀ (ml : List (String × String)), (∀ q ∈ ml, env.downloadOk q.1 = true) →
      downloadPhase env ml = (true, ml.map (fun q => Call.download q.1 true)) := by
  intro ml
  induction ml with
  | nil => intro _; rfl
  | cons x rest ih =>
    intro h
    obtain ⟨url, kind⟩ := x
    have hx : env.downloadOk url = true := h (url, kind) (List.mem_cons_self _ _)
    have hr := ih (fun q hq => h q (List.mem_cons_of_mem _ hq))
    simp [downloadPhase, hx, hr]

lemma mainSendCall_success (ok : Bool) (cid tid : Int) (x : String × String)
    (rest : List (String × String)) :
    isSuccessSend (mainSendCall ok cid tid x rest) = ok := by
  unfold mainSendCall singleSendCall
  repeat' split
  all_goals rfl

lemma mainSendCall_payload (ok : Bool) (cid tid : Int) (x : String × String)
    (rest : List (String × String)) :
    isPayloadSend (mainSendCall ok cid tid x rest) = true := by
  unfold mainSendCall singleSendCall
  repeat' split
  all_goals rfl

lemma mainSendCall_not_fallback (ok : Bool) (cid tid : Int) (x : String × String)
    (rest : List (String × String)) :
    isFallbackSend (mainSendCall ok cid tid x rest) = false := by
  unfold mainSendCall singleSendCall
  repeat' split
  all_goals rfl

lemma mainSendCall_not_error (ok : Bool) (cid tid : Int) (x : String × String)
    (rest : List (String × String)) :
    isErrorReport (mainSendCall ok cid tid x rest) = false := by
  unfold mainSendCall singleSendCall
  repeat' split
  all_goals rfl

/-- The shape of a full delivery attempt whose downloads all succeed and
whose media list is within the group cap: the comment fetch, one download
per item in order, and exactly one send call; a successful send yields
True and a failed send yields the NameError raised by the broken except
clause, with no further call either way. -/
lemma send_to_telegram_shape (env : TgEnv) (cid tid eid : Int) (sub : Submission)
    (x : String × String) (rest : List (String × String))
    (hlen : (x :: rest).length ≤ 10)
    (hdl : ∀ q ∈ x :: rest, env.downloadOk q.1 = true) :
    send_to_telegram env cid tid sub (x :: rest) eid =
      ((if outcomeOk env.outcome then Except.ok true else Except.error nameErrorMsg),
        Call.fetchComments :: (((x :: rest).map (fun q => Call.download q.1 true)) ++
          [mainSendCall (outcomeOk env.outcome) cid tid x rest])) := by
  have h10 : ¬ ((x :: rest).length > 10) := by omega
  have hdp := downloadPhase_all_ok env (x :: rest) hdl
  unfold send_to_telegram
  rw [if_neg h10]
  simp only [hdp]
  cases hok : outcomeOk env.outcome <;> simp [hok]

/-- The download trace contributes nothing to the payload-send counters. -/
lemma downloadPhase_filter_zero (env : TgEnv) (ml : List (String × String))
    (p : Call → Bool) (hp : ∀ url ok, p (Call.download url ok) = false) :
    ((downloadPhase env ml).2.filter p).length = 0 := by
  apply length_filter_eq_zero
  intro c hc
  obtain ⟨url, ok, rfl⟩ := downloadPhase_only_downloads env ml c hc
  exact hp url ok

/-- A delivery attempt either reports success having made exactly one
successful payload send, or does not report success (returning False or
raising) and makes none. -/
lemma send_cases (env : TgEnv) (cid tid eid : Int) (sub : Submission)
    (ml : List (String × String)) :
    ((send_to_telegram env cid tid sub ml eid).1 = Except.ok true ∧
      successSendCount (send_to_telegram env cid tid sub ml eid).2 = 1) ∨
    (¬ (send_to_telegram env cid tid sub ml eid).1 = Except.ok true ∧
      successSendCount (send_to_telegram env cid tid sub ml eid).2 = 0) := by
  by_cases h10 : ml.length > 10
  · right
    constructor
    · simp [send_to_telegram, h10]
    · simp [send_to_telegram, h10, successSendCount, isSuccessSend]
  · cases ml with
    | nil =>
      right
      constructor
      · simp [send_to_telegram, h10]
      · simp [send_to_telegram, h10, successSendCount, isSuccessSend]
    | cons x rest =>
      have hz := downloadPhase_filter_zero env (x :: rest) isSuccessSend (fun _ _ => rfl)
      have h10' : ¬ 10 < rest.length + 1 := by simp at h10; omega
      have hf : isSuccessSend Call.fetchComments = false := rfl
      have he : ∀ c t, isSuccessSend (Call.sendErrorMessage c t) = false := fun _ _ => rfl
      by_cases hdp : (downloadPhase env (x :: rest)).1 = false
      · right
        constructor
        · simp [send_to_telegram, h10', hdp]
        · simp [send_to_telegram, h10', hdp, successSendCount, List.filter_append,
            isSuccessSend, hz]
      · cases hok : outcomeOk env.outcome
        · right
          constructor
          · simp [send_to_telegram, h10', hdp, hok]
          · simp [send_to_telegram, h10', hdp, hok, successSendCount, List.filter_append,
              List.filter_cons, hf, he, mainSendCall_success, hz]
        · left
          constructor
          · simp [send_to_telegram, h10', hdp, hok]
          · simp [send_to_telegram, h10', hdp, hok, successSendCount, List.filter_append,
              List.filter_cons, hf, he, mainSendCall_success, hz]

/-! ## Pipeline lemmas for the idempotence claim -/

/-- An already-recorded identifier short-circuits the pipeline: no calls. -/
lemma processPost_mem (env : TgEnv) (gid tid eid : Int) (st : List String)
    (sub : Submission) (h : sub.id ∈ st) :
    processPost env gid tid eid st sub = ⟨st, [], false⟩ := by
  unfold processPost
  rw [if_pos h]

/-- A classification exception short-circuits the pipeline: no calls. -/
lemma processPost_classify_error (env : TgEnv) (gid tid eid : Int) (st : List String)
    (sub : Submission) (e : String) (h : sub.id ∉ st)
    (hg : get_media_urls sub = Except.error e) :
    processPost env gid tid eid st sub = ⟨st, [], false⟩ := by
  unfold processPost
  rw [if_neg h, hg]

/-- An empty classification short-circuits the pipeline: no calls. -/
lemma processPost_classify_nil (env : TgEnv) (gid tid eid : Int) (st : List String)
    (sub : Submission) (h : sub.id ∉ st)
    (hg : get_media_urls sub = Except.ok []) :
    processPost env gid tid eid st sub = ⟨st, [], false⟩ := by
  unfold processPost
  rw [if_neg h, hg]

/-- A non-empty classification hands the send result to the
record-on-success step. -/
lemma processPost_classify_cons (env : TgEnv) (gid tid eid : Int) (st : List String)
    (sub : Submission) (m : String × String) (ms : List (String × String))
    (h : sub.id ∉ st) (hg : get_media_urls sub = Except.ok (m :: ms)) :
    processPost env gid tid eid st sub =
      afterSend st sub.id (send_to_telegram env gid tid sub (m :: ms) eid) := by
  unfold processPost
  rw [if_neg h, hg]

lemma afterSend_ok (st : List String) (sid : String) (tr : List Call) :
    afterSend st sid (Except.ok true, tr) = ⟨sid :: st, tr, true⟩ := rfl

lemma afterSend_not (st : List String) (sid : String) (res : Except String Bool)
    (tr : List Call) (hres : ¬ res = Except.ok true) :
    afterSend st sid (res, tr) = ⟨st, tr, false⟩ := by
  rcases res with e | b
  · rfl
  · cases b
    · rfl
    · exact absurd rfl hres

/-- A non-empty classification whose send reports success records the
identifier. -/
lemma processPost_send_ok (env : TgEnv) (gid tid eid : Int) (st : List String)
    (sub : Submission) (m : String × String) (ms : List (String × String))
    (tr : List Call) (h : sub.id ∉ st) (hg : get_media_urls sub = Except.ok (m :: ms))
    (hsend : send_to_telegram env gid tid sub (m :: ms) eid = (Except.ok true, tr)) :
    processPost env gid tid eid st sub = ⟨sub.id :: st, tr, true⟩ := by
  rw [processPost_classify_cons env gid tid eid st sub m ms h hg, hsend, afterSend_ok]

/-- A non-empty classification whose send returns False or raises leaves
the identifier unrecorded. -/
lemma processPost_send_not (env : TgEnv) (gid tid eid : Int) (st : List String)
    (sub : Submission) (m : String × String) (ms : List (String × String))
    (res : Except String Bool) (tr : List Call) (h : sub.id ∉ st)
    (hg : get_media_urls sub = Except.ok (m :: ms))
    (hsend : send_to_telegram env gid tid sub (m :: ms) eid = (res, tr))
    (hres : ¬ res = Except.ok true) :
    processPost env gid tid eid st sub = ⟨st, tr, false⟩ := by
  rw [processPost_classify_cons env gid tid eid st sub m ms h hg, hsend,
    afterSend_not st sub.id res tr hres]

/-- A delivered post has its identifier recorded in the resulting set. -/
lemma processPost_delivered_mem (env : TgEnv) (gid tid eid : Int) (st : List String)
    (sub : Submission) (h : (processPost env gid tid eid st sub).delivered = true) :
    sub.id ∈ (processPost env gid tid eid st sub).processed := by
  by_cases hmem : sub.id ∈ st
  · rw [processPost_mem env gid tid eid st sub hmem] at h
    exact absurd h (by simp)
  · rcases hg : get_media_urls sub with e | media
    · rw [processPost_classify_error env gid tid eid st sub e hmem hg] at h
      exact absurd h (by simp)
    · cases media with
      | nil =>
        rw [processPost_classify_nil env gid tid eid st sub hmem hg] at h
        exact absurd h (by simp)
      | cons m ms =>
        rcases send_cases env gid tid eid sub (m :: ms) with ⟨hs, _⟩ | ⟨hs, _⟩
        · have hsend : send_to_telegram env gid tid sub (m :: ms) eid =
              (Except.ok true, (send_to_telegram env gid tid sub (m :: ms) eid).2) := by
            rw [← hs]
          rw [processPost_send_ok env gid tid eid st sub m ms _ hmem hg hsend] at h ⊢
          simp
        · have hsend : send_to_telegram env gid tid sub (m :: ms) eid =
              ((send_to_telegram env gid tid sub (m :: ms) eid).1,
               (send_to_telegram env gid tid sub (m :: ms) eid).2) := rfl
          rw [processPost_send_not env gid tid eid st sub m ms _ _ hmem hg hsend hs] at h
          exact absurd h (by simp)

/-- One pipeline run makes exactly one successful send if it delivered,
and none otherwise. -/
lemma processPost_success_count (env : TgEnv) (gid tid eid : Int) (st : List String)
    (sub : Submission) :
    successSendCount (processPost env gid tid eid st sub).trace =
      (if (processPost env gid tid eid st sub).delivered = true then 1 else 0) := by
  by_cases hmem : sub.id ∈ st
  · rw [processPost_mem env gid tid eid st sub hmem]
    simp [successSendCount]
  · rcases hg : get_media_urls sub with e | media
    · rw [processPost_classify_error env gid tid eid st sub e hmem hg]
      simp [successSendCount]
    · cases media with
      | nil =>
        rw [processPost_classify_nil env gid tid eid st sub hmem hg]
        simp [successSendCount]
      | cons m ms =>
        rcases send_cases env gid tid eid sub (m :: ms) with ⟨hs, hc⟩ | ⟨hs, hc⟩
        · have hsend : send_to_telegram env gid tid sub (m :: ms) eid =
              (Except.ok true, (send_to_telegram env gid tid sub (m :: ms) eid).2) := by
            rw [← hs]
          rw [processPost_send_ok env gid tid eid st sub m ms _ hmem hg hsend]
          simp [hc]
        · have hsend : send_to_telegram env gid tid sub (m :: ms) eid =
              ((send_to_telegram env gid tid sub (m :: ms) eid).1,
               (send_to_telegram env gid tid sub (m :: ms) eid).2) := rfl
          rw [processPost_send_not env gid tid eid st sub m ms _ _ hmem hg hsend hs]
          simp [hc]

/-- A nonempty pattern is never found in the empty list. -/
lemma hasSub_nonempty (p : Char) (ps l : List Char)
    (h : hasSub (p :: ps) l = true) : l ≠ [] := by
  intro hl
  subst hl
  simp [hasSub, subAt] at h

/-! ## Lock-discipline lemmas for the interleaving model -/

lemma stepTask_lockOk (id0 id1 : String) (t : Bool) (c : StreamConf) (h : lockOk c) :
    lockOk (stepTask id0 id1 t c) := by
  obtain ⟨h0, h1⟩ := h
  cases t
  · -- task 0 steps
    cases hp : c.phase0
    case p0 =>
      cases hl : c.lockHolder
      case none =>
        simp only [stepTask, phaseOf, Bool.false_eq_true, if_false, hp, hl, setPhase]
        refine ⟨fun _ => rfl, fun hcrit => ?_⟩
        have hx := h1 hcrit
        rw [hl] at hx
        exact absurd hx (by simp)
      case some holder =>
        simp only [stepTask, phaseOf, Bool.false_eq_true, if_false, hp, hl]
        exact ⟨h0, h1⟩
    case p1 =>
      have hold : c.lockHolder = some false := h0 (by rw [hp]; rfl)
      by_cases hm : idFor id0 id1 false ∈ c.processed
      · simp only [stepTask, phaseOf, Bool.false_eq_true, if_false, hp, hm, if_true, setPhase]
        exact ⟨fun _ => hold, h1⟩
      · simp only [stepTask, phaseOf, Bool.false_eq_true, if_false, hp, hm, setPhase]
        exact ⟨fun _ => hold, h1⟩
    case p2 =>
      have hold : c.lockHolder = some false := h0 (by rw [hp]; rfl)
      simp only [stepTask, phaseOf, Bool.false_eq_true, if_false, hp, setPhase]
      refine ⟨fun hcrit => by simp [inCritical] at hcrit, fun hcrit => ?_⟩
      have hx := (h1 hcrit).symm.trans hold
      exact absurd hx (by simp)
    case p3 =>
      have hold : c.lockHolder = some false := h0 (by rw [hp]; rfl)
      simp only [stepTask, phaseOf, Bool.false_eq_true, if_false, hp, setPhase]
      refine ⟨fun hcrit => by simp [inCritical] at hcrit, fun hcrit => ?_⟩
      have hx := (h1 hcrit).symm.trans hold
      exact absurd hx (by simp)
    case p4 =>
      simp only [stepTask, phaseOf, Bool.false_eq_true, if_false, hp, setPhase]
      exact ⟨fun hcrit => by simp [inCritical] at hcrit, h1⟩
    case p5 =>
      cases hl : c.lockHolder
      case none =>
        simp only [stepTask, phaseOf, Bool.false_eq_true, if_false, hp, hl, setPhase]
        refine ⟨fun _ => rfl, fun hcrit => ?_⟩
        have hx := h1 hcrit
        rw [hl] at hx
        exact absurd hx (by simp)
      case some holder =>
        simp only [stepTask, phaseOf, Bool.false_eq_true, if_false, hp, hl]
        exact ⟨h0, h1⟩
    case p6 =>
      have hold : c.lockHolder = some false := h0 (by rw [hp]; rfl)
      simp only [stepTask, phaseOf, Bool.false_eq_true, if_false, hp, setPhase]
      exact ⟨fun _ => hold, h1⟩
    case p7 =>
      have hold : c.lockHolder = some false := h0 (by rw [hp]; rfl)
      simp only [stepTask, phaseOf, Bool.false_eq_true, if_false, hp, setPhase]
      refine ⟨fun hcrit => by simp [inCritical] at hcrit, fun hcrit => ?_⟩
      have hx := (h1 hcrit).symm.trans hold
      exact absurd hx (by simp)
    case pDone =>
      simp only [stepTask, phaseOf, Bool.false_eq_true, if_false, hp]
      exact ⟨h0, h1⟩
  · -- task 1 steps
    cases hp : c.phase1
    case p0 =>
      cases hl : c.lockHolder
      case none =>
        simp only [stepTask, phaseOf, if_true, hp, hl, setPhase]
        refine ⟨fun hcrit => ?_, fun _ => rfl⟩
        have hx := h0 hcrit
        rw [hl] at hx
        exact absurd hx (by simp)
      case some holder =>
        simp only [stepTask, phaseOf, if_true, hp, hl]
        exact ⟨h0, h1⟩
    case p1 =>
      have hold : c.lockHolder = some true := h1 (by rw [hp]; rfl)
      by_cases hm : idFor id0 id1 true ∈ c.processed
      · simp only [stepTask, phaseOf, if_true, hp, hm, setPhase]
        exact ⟨h0, fun _ => hold⟩
      · simp only [stepTask, phaseOf, if_true, hp, hm, setPhase]
        exact ⟨h0, fun _ => hold⟩
    case p2 =>
      have hold : c.lockHolder = some true := h1 (by rw [hp]; rfl)
      simp only [stepTask, phaseOf, if_true, hp, setPhase]
      refine ⟨fun hcrit => ?_, fun hcrit => by simp [inCritical] at hcrit⟩
      have hx := (h0 hcrit).symm.trans hold
      exact absurd hx (by simp)
    case p3 =>
      have hold : c.lockHolder = some true := h1 (by rw [hp]; rfl)
      simp only [stepTask, phaseOf, if_true, hp, setPhase]
      refine ⟨fun hcrit => ?_, fun hcrit => by simp [inCritical] at hcrit⟩
      have hx := (h0 hcrit).symm.trans hold
      exact absurd hx (by simp)
    case p4 =>
      simp only [stepTask, phaseOf, if_true, hp, setPhase]
      exact ⟨h0, fun hcrit => by simp [inCritical] at hcrit⟩
    case p5 =>
      cases hl : c.lockHolder
      case none =>
        simp only [stepTask, phaseOf, if_true, hp, hl, setPhase]
        refine ⟨fun hcrit => ?_, fun _ => rfl⟩
        have hx := h0 hcrit
        rw [hl] at hx
        exact absurd hx (by simp)
      case some holder =>
        simp only [stepTask, phaseOf, if_true, hp, hl]
        exact ⟨h0, h1⟩
    case p6 =>
      have hold : c.lockHolder = some true := h1 (by rw [hp]; rfl)
      simp only [stepTask, phaseOf, if_true, hp, setPhase]
      exact ⟨h0, fun _ => hold⟩
    case p7 =>
      have hold : c.lockHolder = some true := h1 (by rw [hp]; rfl)
      simp only [stepTask, phaseOf, if_true, hp, setPhase]
      refine ⟨fun hcrit => ?_, fun hcrit => by simp [inCritical] at hcrit⟩
      have hx := (h0 hcrit).symm.trans hold
      exact absurd hx (by simp)
    case pDone =>
      simp only [stepTask, phaseOf, if_true, hp]
      exact ⟨h0, h1⟩

lemma runSched_lockOk (id0 id1 : String) (sched : List Bool) :
    ∀ c : StreamConf, lockOk c → lockOk (runSched id0 id1 sched c) := by
  induction sched with
  | nil => intro c h; exact h
  | cons t ts ih =>
    intro c h
    exact ih _ (stepTask_lockOk id0 id1 t c h)

lemma initConf_lockOk (ps : List String) : lockOk (initConf ps) := by
  constructor
  · intro hcrit
    simp [initConf, inCritical] at hcrit
  · intro hcrit
    simp [initConf, inCritical] at hcrit

/-! ## Gallery-loop and trace-shape lemmas -/

/-- The accumulating gallery loop equals an order-preserving filterMap of
the per-item classifier: items are handled in listed order and skipped
items drop out without disturbing the rest. -/
lemma galleryLoop_filterMap (md : List (String × MetaEntry)) :
    ∀ (items : List GalleryItem) (acc : List (String × String)),
      galleryLoop md acc items = acc ++ items.filterMap (galleryItemSpec md) := by
  intro items
  induction items with
  | nil => intro acc; simp [galleryLoop]
  | cons item rest ih =>
    intro acc
    cases hmid : item.media_id with
    | none => simp [galleryLoop, galleryItemSpec, hmid, ih]
    | some mid =>
      by_cases hemp : mid = ""
      · simp [galleryLoop, galleryItemSpec, hmid, hemp, ih]
      · cases hlk : List.lookup mid md with
        | none => simp [galleryLoop, galleryItemSpec, hmid, hemp, hlk, ih]
        | some meta =>
          cases hs : meta.s with
          | none => simp [galleryLoop, galleryItemSpec, hmid, hemp, hlk, hs, ih]
          | some sdata =>
            by_cases he1 : meta.e = some "RedditVideo"
            · cases hu : strFalsy sdata.u with
              | none => simp [galleryLoop, galleryItemSpec, hmid, hemp, hlk, hs, he1, hu, ih]
              | some u => simp [galleryLoop, galleryItemSpec, hmid, hemp, hlk, hs, he1, hu, ih]
            · by_cases he2 : meta.e = some "AnimatedImage"
              · cases hgf : strFalsy sdata.gif with
                | none =>
                  simp [galleryLoop, galleryItemSpec, hmid, hemp, hlk, hs, he1, he2, hgf, ih]
                | some g =>
                  simp [galleryLoop, galleryItemSpec, hmid, hemp, hlk, hs, he1, he2, hgf, ih]
              · cases hu : strFalsy sdata.u with
                | none =>
                  simp [galleryLoop, galleryItemSpec, hmid, hemp, hlk, hs, he1, he2, hu, ih]
                | some u =>
                  simp [galleryLoop, galleryItemSpec, hmid, hemp, hlk, hs, he1, he2, hu, ih]

/-- Gallery-branch unfolding of the classifier. -/
lemma get_media_urls_gallery (sub : Submission) (md : List (String × MetaEntry))
    (items : List GalleryItem)
    (hv : sub.is_video.getD false = false)
    (h1 : strHasSub sub.url "gfycat.com" = false)
    (h2 : strHasSub sub.url "redgifs.com" = false)
    (h3 : strEnds sub.url ".gifv" = false)
    (h4 : strEnds sub.url ".gif" = false)
    (hmd : sub.media_metadata = some (some md))
    (hgd : sub.gallery_data = some items) :
    get_media_urls sub = Except.ok (items.filterMap (galleryItemSpec md)) := by
  unfold get_media_urls
  simp only [hv, Bool.false_eq_true, if_false, h1, h2, h3, h4, Bool.or_self, hmd, hgd]
  cases items with
  | nil => simp
  | cons i rest =>
    simp [galleryLoop_filterMap]

/-- Filtering the download calls with a predicate that ignores downloads
yields nothing. -/
lemma filter_downloads_nil (p : Call → Bool) (hp : ∀ u o, p (Call.download u o) = false)
    (ml : List (String × String)) :
    (ml.map fun q => Call.download q.1 true).filter p = [] :=
  List.filter_eq_nil_iff.mpr (fun c hc => by
    obtain ⟨q, _, rfl⟩ := List.mem_map.mp hc
    simp [hp])

/-- A counter that ignores the comment fetch and the downloads sees only
the tail of a shaped trace. -/
lemma count_shape_trace (p : Call → Bool) (hp : ∀ u o, p (Call.download u o) = false)
    (hf : p Call.fetchComments = false) (ml : List (String × String)) (tail : List Call) :
    (Call.fetchComments :: ((ml.map fun q => Call.download q.1 true) ++ tail)).filter p =
      tail.filter p := by
  simp [List.filter_cons, hf, List.filter_append, filter_downloads_nil p hp]

/-- groupPayloadOf skips the comment fetch and the downloads. -/
lemma groupPayloadOf_shape (ml : List (String × String)) (tail : List Call) :
    groupPayloadOf (Call.fetchComments :: ((ml.map fun q => Call.download q.1 true) ++ tail)) =
      groupPayloadOf tail := by
  induction ml with
  | nil => simp [groupPayloadOf]
  | cons q rest ih => simpa [groupPayloadOf] using ih

/-- With more than one item the send call is the grouped send. -/
lemma mainSendCall_group (ok : Bool) (cid tid : Int) (x : String × String)
    (rest : List (String × String)) (h : 0 < rest.length) :
    mainSendCall ok cid tid x rest =
      Call.sendMediaGroup cid (some tid) ((x :: rest).map wrapMedia) ok := by
  unfold mainSendCall
  rw [if_pos (by omega)]

/-! ## Escaping and substring lemmas for the caption -/

lemma mem_replaceAllChar {c pat : Char} {repl l : List Char}
    (h : c ∈ replaceAllChar pat repl l) : c ∈ repl ∨ (c ∈ l ∧ c ≠ pat) := by
  induction l with
  | nil => simp [replaceAllChar] at h
  | cons a l ih =>
    by_cases ha : a = pat
    · simp only [replaceAllChar, ha, if_true] at h
      rcases List.mem_append.mp h with h1 | h2
      · exact Or.inl h1
      · rcases ih h2 with h3 | ⟨h3, h4⟩
        · exact Or.inl h3
        · exact Or.inr ⟨List.mem_cons_of_mem a h3, h4⟩
    · simp only [replaceAllChar, ha, if_false] at h
      rcases List.mem_cons.mp h with rfl | h2
      · exact Or.inr ⟨List.mem_cons_self _ _, ha⟩
      · rcases ih h2 with h3 | ⟨h3, h4⟩
        · exact Or.inl h3
        · exact Or.inr ⟨List.mem_cons_of_mem a h3, h4⟩

/-- escape_chars removes every raw angle bracket. -/
lemma escape_chars_no_angle (l : List Char) :
    '<' ∉ escape_chars l ∧ '>' ∉ escape_chars l := by
  constructor
  · intro hmem
    rcases mem_replaceAllChar hmem with h | ⟨h, _⟩
    · simp at h
    · rcases mem_replaceAllChar h with h2 | ⟨_, h3⟩
      · simp at h2
      · exact h3 rfl
  · intro hmem
    rcases mem_replaceAllChar hmem with h | ⟨_, h4⟩
    · simp at h
    · exact h4 rfl

lemma subAt_self_append (pat r : List Char) : subAt pat (pat ++ r) = true := by
  induction pat with
  | nil => rfl
  | cons p ps ih => simp [subAt, ih]

lemma hasSub_nil_pat (l : List Char) : hasSub [] l = true := by
  cases l <;> simp [hasSub, subAt]

/-- A pattern occurring as an explicit middle segment is found. -/
lemma hasSub_append_mid (A pat B : List Char) : hasSub pat (A ++ (pat ++ B)) = true := by
  induction A with
  | nil =>
    cases pat with
    | nil => simpa using hasSub_nil_pat B
    | cons p ps =>
      show hasSub (p :: ps) ((p :: ps) ++ B) = true
      rw [List.cons_append]
      have hself := subAt_self_append (p :: ps) B
      rw [List.cons_append] at hself
      simp [hasSub, hself]
  | cons a A ih =>
    rw [List.cons_append]
    simp [hasSub, ih]

/-- A grouped delivery whose downloads succeed sends exactly the wrapped
media list, in order. -/
lemma send_group_payload (env : TgEnv) (cid tid eid : Int) (sub : Submission)
    (x : String × String) (rest : List (String × String))
    (h1 : 0 < rest.length) (hlen : (x :: rest).length ≤ 10)
    (hdl : ∀ q ∈ x :: rest, env.downloadOk q.1 = true) :
    groupPayloadOf (send_to_telegram env cid tid sub (x :: rest) eid).2 =
      some ((x :: rest).map wrapMedia) := by
  have hsh := send_to_telegram_shape env cid tid eid sub x rest hlen hdl
  rw [hsh]
  rw [groupPayloadOf_shape, mainSendCall_group (outcomeOk env.outcome) cid tid x rest h1]
  rfl

/-! ## The claims -/

/-- C1: running the per-submission delivery pipeline twice with the same
submission results in at most one successful send to the primary
destination across the two runs, and if the first run delivered, the
second run observes the identifier as recorded and issues no network
calls at all. -/
theorem c1_deliver_pipeline_idempotent (env1 env2 : TgEnv) (gid tid eid : Int)
    (st : List String) (sub : Submission) :
    successSendCount (processPost env1 gid tid eid st sub).trace +
      successSendCount (processPost env2 gid tid eid
        (processPost env1 gid tid eid st sub).processed sub).trace ≤ 1 ∧
    ((processPost env1 gid tid eid st sub).delivered = true →
      (processPost env2 gid tid eid
        (processPost env1 gid tid eid st sub).processed sub).trace = []) := by
  by_cases hd : (processPost env1 gid tid eid st sub).delivered = true
  · have hmem := processPost_delivered_mem env1 gid tid eid st sub hd
    have h2 := processPost_mem env2 gid tid eid _ sub hmem
    constructor
    · rw [h2, processPost_success_count env1 gid tid eid st sub, if_pos hd]
      simp [successSendCount]
    · intro _
      rw [h2]
  · constructor
    · rw [processPost_success_count env1 gid tid eid st sub, if_neg hd,
        processPost_success_count env2 gid tid eid _ sub]
      split <;> omega
    · intro h
      exact absurd h hd

/-- C1 witness: a concrete first run delivers a direct-image post, and
the second run for the same submission issues zero calls; together the
two runs make at most one successful send. -/
theorem c1_witness :
    (processPost envAllOk 1 2 3
        (processPost envAllOk 1 2 3 [] subPhoto).processed subPhoto).trace = [] ∧
    successSendCount (processPost envAllOk 1 2 3 [] subPhoto).trace +
      successSendCount (processPost envAllOk 1 2 3
        (processPost envAllOk 1 2 3 [] subPhoto).processed subPhoto).trace ≤ 1 :=
  ⟨(c1_deliver_pipeline_idempotent envAllOk envAllOk 1 2 3 [] subPhoto).2 rfl,
   (c1_deliver_pipeline_idempotent envAllOk envAllOk 1 2 3 [] subPhoto).1⟩

/-- C2 counterexample: with the check and the record in two separate
critical sections, there is a schedule of two concurrent delivery
attempts for the same identifier in which both pass the membership check
and both send, before either has recorded — refuting the claim that one
critical section covers check and record together. -/
theorem c2_counterexample :
    (runSched "s1" "s1" [false, false, false, true, true, true, false, true]
        (initConf [])).sends = [false, true] ∧
    (runSched "s1" "s1" [false, false, false, true, true, true, false, true]
        (initConf [])).processed = [] :=
  ⟨rfl, rfl⟩

/-- C2 amended: the membership check and the record step are each
executed under the one lock, but in two separate critical sections with
the lock free during the send in between; under every schedule a task at
its check or record step holds the lock. -/
theorem c2_lock_discipline (id0 id1 : String) (ps : List String) (sched : List Bool) :
    lockOk (runSched id0 id1 sched (initConf ps)) :=
  runSched_lockOk id0 id1 sched _ (initConf_lockOk ps)

/-- C2 witness: after one concrete acquire step the task sits at its
membership check and holds the lock. -/
theorem c2_lock_discipline_witness :
    (runSched "a" "a" [false] (initConf [])).lockHolder = some false :=
  (c2_lock_discipline "a" "a" [] [false]).1 rfl

/-- C3 counterexample: a send that fails with the closed-topic Telegram
error makes exactly one payload send and no send at all to the default
(topic-free) destination — refuting the claimed single fallback retry;
moreover the function raises NameError (the except clause at line 222
references the unbound name telegram), sending no error notification. -/
theorem c3_counterexample :
    (send_to_telegram envTopicClosed 1 2 subPhoto
        [("https://i.redd.it/a.jpg", "photo")] 3).1 = Except.error nameErrorMsg ∧
    payloadSendCount (send_to_telegram envTopicClosed 1 2 subPhoto
        [("https://i.redd.it/a.jpg", "photo")] 3).2 = 1 ∧
    fallbackSendCount (send_to_telegram envTopicClosed 1 2 subPhoto
        [("https://i.redd.it/a.jpg", "photo")] 3).2 = 0 ∧
    errorReportCount (send_to_telegram envTopicClosed 1 2 subPhoto
        [("https://i.redd.it/a.jpg", "photo")] 3).2 = 0 :=
  ⟨rfl, rfl, rfl, rfl⟩

/-- C3 amended: when the primary send fails with a Telegram error such as
a closed topic, the payload is never retried against the default
destination: exactly one payload send is attempted, and the broken
except clause (unbound name telegram, line 222) then raises NameError
out of send_to_telegram — no error notification is sent and no failure
flag is returned on this path. -/
theorem c3_no_fallback_on_closed_topic (env : TgEnv) (cid tid eid : Int)
    (sub : Submission) (x : String × String) (rest : List (String × String)) (e : String)
    (hlen : (x :: rest).length ≤ 10)
    (hdl : ∀ q ∈ x :: rest, env.downloadOk q.1 = true)
    (hout : env.outcome = SendOutcome.telegramError e) :
    (send_to_telegram env cid tid sub (x :: rest) eid).1 = Except.error nameErrorMsg ∧
    fallbackSendCount (send_to_telegram env cid tid sub (x :: rest) eid).2 = 0 ∧
    errorReportCount (send_to_telegram env cid tid sub (x :: rest) eid).2 = 0 ∧
    payloadSendCount (send_to_telegram env cid tid sub (x :: rest) eid).2 = 1 := by
  have hok : outcomeOk env.outcome = false := by rw [hout]; rfl
  have hsh := send_to_telegram_shape env cid tid eid sub x rest hlen hdl
  rw [hok] at hsh
  simp only [Bool.false_eq_true, if_false] at hsh
  refine ⟨by rw [hsh], ?_, ?_, ?_⟩
  · unfold fallbackSendCount
    rw [hsh]
    rw [count_shape_trace isFallbackSend (fun _ _ => rfl) rfl]
    simp [List.filter_cons, mainSendCall_not_fallback]
  · unfold errorReportCount
    rw [hsh]
    rw [count_shape_trace isErrorReport (fun _ _ => rfl) rfl]
    simp [List.filter_cons, mainSendCall_not_error]
  · unfold payloadSendCount
    rw [hsh]
    rw [count_shape_trace isPayloadSend (fun _ _ => rfl) rfl]
    simp [List.filter_cons, mainSendCall_payload]

/-- C3 witness: concrete closed-topic failure with one photo item — no
fallback send, no error notification, one payload send, NameError. -/
theorem c3_witness :
    (send_to_telegram envTopicClosed 4 5 subPhoto
        [("https://i.redd.it/b.jpg", "photo")] 6).1 = Except.error nameErrorMsg ∧
    fallbackSendCount (send_to_telegram envTopicClosed 4 5 subPhoto
        [("https://i.redd.it/b.jpg", "photo")] 6).2 = 0 ∧
    errorReportCount (send_to_telegram envTopicClosed 4 5 subPhoto
        [("https://i.redd.it/b.jpg", "photo")] 6).2 = 0 ∧
    payloadSendCount (send_to_telegram envTopicClosed 4 5 subPhoto
        [("https://i.redd.it/b.jpg", "photo")] 6).2 = 1 :=
  c3_no_fallback_on_closed_topic envTopicClosed 4 5 6 subPhoto
    ("https://i.redd.it/b.jpg", "photo") [] "Topic_closed"
    (by decide) (fun q _ => rfl) rfl

/-- C4 counterexample: a submission classified with zero media items is
skipped: the delivery sends no message of any kind (the trace holds only
the comment fetch) and reports failure, and the stream path issues no
calls — refuting the claimed plain-text caption message. -/
theorem c4_counterexample :
    get_media_urls subText = Except.ok [] ∧
    send_to_telegram envAllOk 1 2 subText [] 3 = (Except.ok false, [Call.fetchComments]) ∧
    (processPost envAllOk 1 2 3 [] subText).trace = [] :=
  ⟨rfl, rfl, rfl⟩

/-- C4 amended: a submission with zero classified media items results in
no message at all: send_to_telegram returns failure without any Telegram
call, and the stream pipeline skips the post without issuing network
calls. -/
theorem c4_no_media_no_send (env : TgEnv) (cid tid gid eid : Int) (st : List String)
    (sub : Submission) (hcl : get_media_urls sub = Except.ok []) :
    send_to_telegram env cid tid sub [] eid = (Except.ok false, [Call.fetchComments]) ∧
    (processPost env gid tid eid st sub).trace = [] ∧
    (processPost env gid tid eid st sub).delivered = false := by
  refine ⟨rfl, ?_, ?_⟩
  · by_cases hmem : sub.id ∈ st
    · rw [processPost_mem env gid tid eid st sub hmem]
    · rw [processPost_classify_nil env gid tid eid st sub hmem hcl]
  · by_cases hmem : sub.id ∈ st
    · rw [processPost_mem env gid tid eid st sub hmem]
    · rw [processPost_classify_nil env gid tid eid st sub hmem hcl]

/-- C4 witness: the concrete text-only submission is skipped with no
message sent. -/
theorem c4_witness :
    send_to_telegram envAllOk 5 6 subText [] 7 = (Except.ok false, [Call.fetchComments]) ∧
    (processPost envAllOk 8 6 7 [] subText).trace = [] ∧
    (processPost envAllOk 8 6 7 [] subText).delivered = false :=
  c4_no_media_no_send envAllOk 5 6 8 7 [] subText rfl

/-- C5 counterexample: a send failing with a timeout makes exactly one
payload send attempt, not the claimed three retries with backoff; no
error notification follows because the except clause raises NameError. -/
theorem c5_counterexample :
    payloadSendCount (send_to_telegram envTimeout 1 2 subPhoto
        [("https://i.redd.it/c.mp4", "video")] 3).2 = 1 ∧
    ¬ payloadSendCount (send_to_telegram envTimeout 1 2 subPhoto
        [("https://i.redd.it/c.mp4", "video")] 3).2 = 3 ∧
    errorReportCount (send_to_telegram envTimeout 1 2 subPhoto
        [("https://i.redd.it/c.mp4", "video")] 3).2 = 0 :=
  ⟨rfl, by decide, rfl⟩

/-- C5 amended: a failed send (timeout or any other failure) is never
retried: the delivery makes exactly one payload send attempt, with no
backoff, and then raises NameError from the broken except clause instead
of reporting — no error notification is sent and no False is returned on
this path. -/
theorem c5_no_retry_on_transient_error (env : TgEnv) (cid tid eid : Int)
    (sub : Submission) (x : String × String) (rest : List (String × String))
    (hlen : (x :: rest).length ≤ 10)
    (hdl : ∀ q ∈ x :: rest, env.downloadOk q.1 = true)
    (hout : outcomeOk env.outcome = false) :
    (send_to_telegram env cid tid sub (x :: rest) eid).1 = Except.error nameErrorMsg ∧
    payloadSendCount (send_to_telegram env cid tid sub (x :: rest) eid).2 = 1 ∧
    errorReportCount (send_to_telegram env cid tid sub (x :: rest) eid).2 = 0 := by
  have hsh := send_to_telegram_shape env cid tid eid sub x rest hlen hdl
  rw [hout] at hsh
  simp only [Bool.false_eq_true, if_false] at hsh
  refine ⟨by rw [hsh], ?_, ?_⟩
  · unfold payloadSendCount
    rw [hsh]
    rw [count_shape_trace isPayloadSend (fun _ _ => rfl) rfl]
    simp [List.filter_cons, mainSendCall_payload]
  · unfold errorReportCount
    rw [hsh]
    rw [count_shape_trace isErrorReport (fun _ _ => rfl) rfl]
    simp [List.filter_cons, mainSendCall_not_error]

/-- C5 witness: a concrete timeout failure makes exactly one payload send
attempt, sends no notification, and raises. -/
theorem c5_witness :
    (send_to_telegram envTimeout 4 5 subPhoto
        [("https://i.redd.it/d.jpg", "photo")] 6).1 = Except.error nameErrorMsg ∧
    payloadSendCount (send_to_telegram envTimeout 4 5 subPhoto
        [("https://i.redd.it/d.jpg", "photo")] 6).2 = 1 ∧
    errorReportCount (send_to_telegram envTimeout 4 5 subPhoto
        [("https://i.redd.it/d.jpg", "photo")] 6).2 = 0 :=
  c5_no_retry_on_transient_error envTimeout 4 5 6 subPhoto
    ("https://i.redd.it/d.jpg", "photo") [] (by decide) (fun q _ => rfl) rfl

/-- C6 counterexample: on the spec its own example input the classifier
emits the playback URL with its query parameter intact, and that URL
differs from the claimed query-stripped one. -/
theorem c6_counterexample :
    get_media_urls subVideoQuery =
      Except.ok [("https://v.redd.it/abc?source=1", "video")] ∧
    ("https://v.redd.it/abc?source=1" : String) ≠ "https://v.redd.it/abc" :=
  ⟨rfl, by decide⟩

/-- C6 amended: a video-flagged submission with a resolvable playback URL
yields exactly one video item whose URL is the playback URL unchanged —
query parameters are not stripped. -/
theorem c6_video_url_unstripped (s : Submission) (m : MediaDict)
    (rv : RedditVideoDict) (u : String)
    (h1 : s.is_video.getD false = true) (h2 : s.media = some m)
    (h3 : m.reddit_video = some rv) (h4 : rv.fallback_url = some u) :
    get_media_urls s = Except.ok [(u, "video")] := by
  unfold get_media_urls
  simp only [h1, if_true, h2, h3, h4]

/-- C6 witness: the amended rule evaluated on the example submission. -/
theorem c6_witness :
    get_media_urls subVideoQuery =
      Except.ok [("https://v.redd.it/abc?source=1", "video")] :=
  c6_video_url_unstripped subVideoQuery
    { reddit_video := some { fallback_url := some "https://v.redd.it/abc?source=1" } }
    { fallback_url := some "https://v.redd.it/abc?source=1" }
    "https://v.redd.it/abc?source=1" rfl rfl rfl rfl

/-- C7 counterexample: the classifier raises (AttributeError in the
source) instead of returning a best-effort list on two null-field
shapes — a video-flagged submission whose media descriptor is null
(line 66), and a gallery submission whose media_metadata attribute is
present but null (line 89) — refuting totality as claimed. -/
theorem c7_counterexample :
    get_media_urls subVideoNullMedia =
      Except.error "AttributeError: NoneType has no attribute get" ∧
    get_media_urls subGalleryNullMeta =
      Except.error "AttributeError: NoneType has no attribute get" ∧
    exceptOk (get_media_urls subVideoNullMedia) = false :=
  ⟨rfl, rfl, rfl⟩

/-- C7 amended: the classifier raises only where a null-valued descriptor
is accessed without a None guard — a video-flagged submission whose
media descriptor is null (line 66), or a present-but-null media_metadata
reached by a gallery item with a usable identifier (line 89); whenever a
truthy video flag implies a non-null media descriptor and a present
media_metadata is non-null, classification returns a (possibly empty)
list. -/
theorem c7_total_unless_null_descriptors (s : Submission)
    (h : s.is_video.getD false = true → s.media ≠ none)
    (h2 : ¬ s.media_metadata = some none) :
    exceptOk (get_media_urls s) = true := by
  by_cases hv : s.is_video.getD false = true
  · rcases hm : s.media with _ | m
    · exact absurd hm (h hv)
    · unfold get_media_urls
      simp only [hv, if_true, hm]
      rcases hr : m.reddit_video with _ | rv
      · simp [hr, exceptOk]
      · rcases hf : rv.fallback_url with _ | u <;> simp [hr, hf, exceptOk]
  · unfold get_media_urls
    simp only [Bool.not_eq_true] at hv
    simp only [hv, Bool.false_eq_true, if_false]
    repeat' split
    all_goals first
      | rfl
      | exact absurd (by assumption) h2

/-- C7 witness: classification succeeds on the example video submission,
whose media descriptor is present and whose media_metadata attribute is
absent. -/
theorem c7_witness : exceptOk (get_media_urls subVideoQuery) = true :=
  c7_total_unless_null_descriptors subVideoQuery (fun _ => by decide) (by decide)

/-- C8: gallery items are classified in their listed order as an
order-preserving filterMap of the per-item rule, so an item with missing
metadata is skipped without disturbing the rest; and a grouped delivery
of the resulting list sends the wrapped items in exactly that order. -/
theorem c8_gallery_order_and_degradation (sub : Submission)
    (md : List (String × MetaEntry)) (items : List GalleryItem)
    (hv : sub.is_video.getD false = false)
    (h1 : strHasSub sub.url "gfycat.com" = false)
    (h2 : strHasSub sub.url "redgifs.com" = false)
    (h3 : strEnds sub.url ".gifv" = false)
    (h4 : strEnds sub.url ".gif" = false)
    (hmd : sub.media_metadata = some (some md))
    (hgd : sub.gallery_data = some items) :
    get_media_urls sub = Except.ok (items.filterMap (galleryItemSpec md)) ∧
    (∀ (env : TgEnv) (cid tid eid : Int) (x : String × String)
        (rest : List (String × String)),
      0 < rest.length → (x :: rest).length ≤ 10 →
      (∀ q ∈ x :: rest, env.downloadOk q.1 = true) →
      groupPayloadOf (send_to_telegram env cid tid sub (x :: rest) eid).2 =
        some ((x :: rest).map wrapMedia)) := by
  refine ⟨get_media_urls_gallery sub md items hv h1 h2 h3 h4 hmd hgd, ?_⟩
  intro env cid tid eid x rest hl1 hl10 hdl
  exact send_group_payload env cid tid eid sub x rest hl1 hl10 hdl

/-- C8 witness: the three-item gallery with the metadata of item g2
missing yields items g1 and g3 in listed order, and the grouped send
carries exactly those two wrapped items in that order. -/
theorem c8_witness :
    get_media_urls subGallery3 =
      Except.ok [("https://i.redd.it/u1.jpg", "photo"), ("https://i.redd.it/u3.jpg", "photo")] ∧
    groupPayloadOf (send_to_telegram envAllOk 1 2 subGallery3
        [("https://i.redd.it/u1.jpg", "photo"), ("https://i.redd.it/u3.jpg", "photo")] 3).2 =
      some [InputMedia.photoMedia "https://i.redd.it/u1.jpg",
            InputMedia.photoMedia "https://i.redd.it/u3.jpg"] := by
  have h := c8_gallery_order_and_degradation subGallery3 galleryMd3 galleryItems3
    rfl rfl rfl rfl rfl rfl rfl
  refine ⟨h.1.trans (by rfl), ?_⟩
  have h2 := h.2 envAllOk 1 2 3 ("https://i.redd.it/u1.jpg", "photo")
    [("https://i.redd.it/u3.jpg", "photo")] (by decide) (by decide) (fun q _ => rfl)
  exact h2.trans (by rfl)

/-- C9 counterexample: with a deleted author and a subreddit name holding
an HTML special character, the caption carries the subreddit name raw and
not in escaped form — refuting the claim that all user-supplied text
(title, author, subreddit, URLs) is HTML-escaped. -/
theorem c9_counterexample :
    subDeleted.author = none ∧
    hasSub (("r/a<b").toList) (caption_list subDeleted []) = true ∧
    hasSub (("a&lt;b").toList) (caption_list subDeleted []) = false :=
  ⟨rfl, rfl, rfl⟩

/-- C9 amended: a deleted-author submission yields a non-empty caption
that never crashes, carries the placeholder u/None in place of the author
name, and interpolates the subreddit name verbatim; the title and the
author name pass through HTML escaping, which removes every raw angle
bracket, while the subreddit and permalink are interpolated unescaped. -/
theorem c9_deleted_author_caption (sub : Submission) (comments : List Char)
    (ha : sub.author = none) :
    caption_list sub comments ≠ [] ∧
    hasSub (("u/None").toList) (caption_list sub comments) = true ∧
    hasSub ((("r/").toList ++ sub.subreddit.toList)) (caption_list sub comments) = true ∧
    ('<' ∉ escape_chars ((sub.title.getD "").toList) ∧
     '>' ∉ escape_chars ((sub.title.getD "").toList)) ∧
    ('<' ∉ escape_chars ((pyStrAuthor sub.author).toList) ∧
     '>' ∉ escape_chars ((pyStrAuthor sub.author).toList)) := by
  have hct : hasSub (("u/None").toList) (caption_list sub comments) = true := by
    by_cases hcm : comments = []
    · have hun : caption_list sub comments =
          (("<b>New Post from r/").toList ++ (sub.subreddit.toList ++ (("</b>\n").toList ++
            (("<b>Title</b>: ").toList ++ (escape_chars ((sub.title.getD "").toList) ++
            (("\n").toList ++ ("<b>Author</b>: ").toList)))))) ++
          ((("u/None").toList) ++
            (("\n\n").toList ++ (("<b>Link</b>: <a href=").toList ++ (['\''] ++
              ((("https://reddit.com").toList ++ sub.permalink.toList) ++ (['\''] ++
              ((">View Post</a>\n\n").toList))))))) := by
        simp only [caption_list, ha, hcm, if_true, pyStrAuthor]
        simp only [List.append_assoc]
        rfl
      rw [hun]
      exact hasSub_append_mid _ _ _
    · have hun : caption_list sub comments =
          (("<b>New Post from r/").toList ++ (sub.subreddit.toList ++ (("</b>\n").toList ++
            (("<b>Title</b>: ").toList ++ (escape_chars ((sub.title.getD "").toList) ++
            (("\n").toList ++ ("<b>Author</b>: ").toList)))))) ++
          ((("u/None").toList) ++
            (("\n\n").toList ++ (("<b>Link</b>: <a href=").toList ++ (['\''] ++
              ((("https://reddit.com").toList ++ sub.permalink.toList) ++ (['\''] ++
              ((">View Post</a>\n\n").toList ++
                (("<b>Top Comments:</b>\n").toList ++ comments)))))))) := by
        simp only [caption_list, ha, hcm, if_false, pyStrAuthor]
        simp only [List.append_assoc]
        rfl
      rw [hun]
      exact hasSub_append_mid _ _ _
  have hcs : hasSub ((("r/").toList ++ sub.subreddit.toList)) (caption_list sub comments)
      = true := by
    by_cases hcm : comments = []
    · have hun : caption_list sub comments =
          ("<b>New Post from ").toList ++
          (((("r/").toList ++ sub.subreddit.toList)) ++ (("</b>\n").toList ++
            (("<b>Title</b>: ").toList ++ (escape_chars ((sub.title.getD "").toList) ++
            (("\n").toList ++ (("<b>Author</b>: u/").toList ++
            (escape_chars (("None").toList) ++
            (("\n\n").toList ++ (("<b>Link</b>: <a href=").toList ++ (['\''] ++
              ((("https://reddit.com").toList ++ sub.permalink.toList) ++ (['\''] ++
              ((">View Post</a>\n\n").toList))))))))))))) := by
        simp only [caption_list, ha, hcm, if_true, pyStrAuthor]
        simp only [List.append_assoc]
        rfl
      rw [hun]
      exact hasSub_append_mid _ _ _
    · have hun : caption_list sub comments =
          ("<b>New Post from ").toList ++
          (((("r/").toList ++ sub.subreddit.toList)) ++ (("</b>\n").toList ++
            (("<b>Title</b>: ").toList ++ (escape_chars ((sub.title.getD "").toList) ++
            (("\n").toList ++ (("<b>Author</b>: u/").toList ++
            (escape_chars (("None").toList) ++
            (("\n\n").toList ++ (("<b>Link</b>: <a href=").toList ++ (['\''] ++
              ((("https://reddit.com").toList ++ sub.permalink.toList) ++ (['\''] ++
              ((">View Post</a>\n\n").toList ++
                (("<b>Top Comments:</b>\n").toList ++ comments)))))))))))))) := by
        simp only [caption_list, ha, hcm, if_false, pyStrAuthor]
        simp only [List.append_assoc]
        rfl
      rw [hun]
      exact hasSub_append_mid _ _ _
  exact ⟨hasSub_nonempty 'u' (("/None").toList) _ hct, hct, hcs,
    escape_chars_no_angle _, escape_chars_no_angle _⟩

/-- C9 witness: the amended caption facts evaluated on the concrete
deleted-author submission. -/
theorem c9_witness :
    caption_list subDeleted [] ≠ [] ∧
    hasSub (("u/None").toList) (caption_list subDeleted []) = true :=
  ⟨(c9_deleted_author_caption subDeleted [] rfl).1,
   (c9_deleted_author_caption subDeleted [] rfl).2.1⟩

/-- C10: in a grouped delivery every item is wrapped by the video-or-photo
rule — a gif item becomes a photo wrapper — and no animation send occurs;
the dedicated animation send is used exactly on the single-item path for
a gif item. -/
theorem c10_animation_only_single_path (env : TgEnv) (cid tid eid : Int)
    (sub : Submission) :
    (∀ (x : String × String) (rest : List (String × String)),
      0 < rest.length → (x :: rest).length ≤ 10 →
      (∀ q ∈ x :: rest, env.downloadOk q.1 = true) →
      groupPayloadOf (send_to_telegram env cid tid sub (x :: rest) eid).2 =
        some ((x :: rest).map wrapMedia) ∧
      animationSendCount (send_to_telegram env cid tid sub (x :: rest) eid).2 = 0) ∧
    (∀ (u t : String), ¬ t = "video" → wrapMedia (u, t) = InputMedia.photoMedia u) ∧
    (∀ u : String, env.downloadOk u = true →
      animationSendCount (send_to_telegram env cid tid sub [(u, "gif")] eid).2 = 1) := by
  refine ⟨?_, ?_, ?_⟩
  · intro x rest h1 h10 hdl
    refine ⟨send_group_payload env cid tid eid sub x rest h1 h10 hdl, ?_⟩
    have hsh := send_to_telegram_shape env cid tid eid sub x rest h10 hdl
    have hga : isAnimationSend (mainSendCall (outcomeOk env.outcome) cid tid x rest)
        = false := by
      rw [mainSendCall_group (outcomeOk env.outcome) cid tid x rest h1]
      rfl
    have herr : isAnimationSend (Call.sendErrorMessage cid (some eid)) = false := rfl
    cases hok : outcomeOk env.outcome
    · rw [hok] at hsh hga
      unfold animationSendCount
      rw [hsh]
      simp only [Bool.false_eq_true, if_false]
      rw [count_shape_trace isAnimationSend (fun _ _ => rfl) rfl]
      simp [List.filter_cons, hga, herr]
    · rw [hok] at hsh hga
      unfold animationSendCount
      rw [hsh]
      simp only [if_true]
      rw [count_shape_trace isAnimationSend (fun _ _ => rfl) rfl]
      simp [List.filter_cons, hga]
  · intro u t ht
    unfold wrapMedia
    rw [if_neg ht]
  · intro u hu
    have hdl : ∀ q ∈ [(u, "gif")], env.downloadOk q.1 = true := by
      intro q hq
      rw [List.mem_singleton] at hq
      subst hq
      exact hu
    have hsh := send_to_telegram_shape env cid tid eid sub (u, "gif") [] (by simp) hdl
    have hma : ∀ ok : Bool, mainSendCall ok cid tid (u, "gif") [] =
        Call.sendAnimation cid (some tid) u ok := by
      intro ok
      rfl
    have herr : isAnimationSend (Call.sendErrorMessage cid (some eid)) = false := rfl
    cases hok : outcomeOk env.outcome
    · rw [hok] at hsh
      unfold animationSendCount
      rw [hsh]
      simp only [Bool.false_eq_true, if_false]
      rw [count_shape_trace isAnimationSend (fun _ _ => rfl) rfl]
      simp [List.filter_cons, hma, herr, isAnimationSend]
    · rw [hok] at hsh
      unfold animationSendCount
      rw [hsh]
      simp only [if_true]
      rw [count_shape_trace isAnimationSend (fun _ _ => rfl) rfl]
      simp [List.filter_cons, hma, isAnimationSend]

/-- C10 witness: a two-item group wraps the gif item as a photo wrapper
and makes no animation send, while a single-item gif delivery makes
exactly one animation send. -/
theorem c10_witness :
    groupPayloadOf (send_to_telegram envAllOk 1 2 subPhoto
        [("https://i.redd.it/g.gif", "gif"), ("https://i.redd.it/v1.mp4", "video")] 3).2 =
      some [InputMedia.photoMedia "https://i.redd.it/g.gif",
            InputMedia.videoMedia "https://i.redd.it/v1.mp4"] ∧
    wrapMedia ("https://i.redd.it/g.gif", "gif") =
      InputMedia.photoMedia "https://i.redd.it/g.gif" ∧
    animationSendCount (send_to_telegram envAllOk 1 2 subPhoto
        [("https://i.redd.it/h.gif", "gif")] 3).2 = 1 := by
  have h := c10_animation_only_single_path envAllOk 1 2 3 subPhoto
  refine ⟨?_, h.2.1 "https://i.redd.it/g.gif" "gif" (by decide),
    h.2.2 "https://i.redd.it/h.gif" rfl⟩
  have h1 := (h.1 ("https://i.redd.it/g.gif", "gif") [("https://i.redd.it/v1.mp4", "video")]
    (by decide) (by decide) (fun q _ => rfl)).1
  exact h1.trans (by rfl)

end RedditTg
